import Mathlib

/-!
Verification development for the RedditBot repository.

The repository has two scanner variants sharing the classifier and generator
adapters verbatim:
  * `src/reddit_bot.py` (direct-reply variant, wrapped by `src/main.py`), and
  * `src/post_detector_lambda/reddit_bot.py` (deferred SQS-enqueue variant),
plus a deferred-delivery consumer `src/reply_handler_lambda/reply_handler_lambda.py`.

External effects (the OpenAI classification and generation calls, PRAW fetch and
reply calls, the SQS send, the random number draws and clock reads) are modelled
as an explicit environment of oracle functions; raising Python exceptions is
modelled by those oracles returning `Except.error`.  Floating point confidences
and delays are modelled over `ℚ`/`ℕ` with the mathematical semantics of
`random.uniform` / `random.randint`.  In-run side-effect calls are recorded in
an event trace so that "invokes no classification / generation / delivery"
claims are expressible.
-/

set_option autoImplicit false

namespace RedditBot

/-- Kernel-computable model of Python `needle in haystack` on character lists. -/
def charInfixOf (needle : List Char) : List Char → Bool
  | [] => needle.isEmpty
  | c :: rest => needle.isPrefixOf (c :: rest) || charInfixOf needle rest

/-- Kernel-computable model of Python `str.lower()` (ASCII-adequate). -/
def pyLower (s : String) : String := ⟨s.data.map Char.toLower⟩

/-- Kernel-computable model of Python `str.strip()`: drop leading and trailing
whitespace. -/
def pyStrip (s : String) : String :=
  ⟨((s.data.dropWhile Char.isWhitespace).reverse.dropWhile Char.isWhitespace).reverse⟩

/-- Kernel-computable model of the Python slice `s[:n]`. -/
def pySlice (s : String) (n : Nat) : String := ⟨s.data.take n⟩

/-- Model of the reply-text truncation `s[:n] + ("..." if len(s) > n else "")`
(`src/reddit_bot.py` line 280 with `n = 200`;
`src/post_detector_lambda/reddit_bot.py` lines 271 and 285 with `n = 100`, `200`). -/
def truncateSummary (n : Nat) (s : String) : String :=
  pySlice s n ++ (if n < s.data.length then "..." else "")

/-- Structured result of the external classification capability, as extracted
from the model JSON by `is_suitable_art_style_match` via
`result.get("is_relevant", False)` etc. in `src/reddit_bot.py` lines 145-148. -/
structure ClassifierResult where
  is_relevant : Bool
  confidence : ℚ
  is_artist_seeking_work : Bool
deriving DecidableEq

/-- The case-insensitive marker checked by the cheap pre-filter
(`src/reddit_bot.py` line 95). -/
def forHireTag : String := "[for hire]"

/-- Model of `"[for hire]" in title.lower()` (`src/reddit_bot.py` lines 94-95). -/
def hasForHireTag (title : String) : Bool :=
  charInfixOf forHireTag.data (pyLower title).data

/-- The literal `0.7` of `src/reddit_bot.py` line 159, as an exact rational
(stated in kernel-computable `mkRat` form; equals `7/10`). -/
def confidence_threshold : ℚ := mkRat 7 10

/-- Shallow embedding of `is_suitable_art_style_match(title, body, openai_client)`
(`src/reddit_bot.py` lines 83-166, identical in
`src/post_detector_lambda/reddit_bot.py` lines 36-119).  The external OpenAI
call is the `capability` argument; `Except.error` models the call raising. -/
def is_suitable_art_style_match (title body : String)
    (capability : Except Unit ClassifierResult) : Bool × ℚ :=
  if hasForHireTag title then (false, 0)
  else
    match capability with
    | Except.error _ => (false, 0)
    | Except.ok result =>
      if result.is_artist_seeking_work then (false, 0)
      else if result.is_relevant = true ∧ confidence_threshold ≤ result.confidence then
        (true, result.confidence)
      else (false, result.confidence)

/-- The footer appended on the success path of `generate_customized_response`
(`src/reddit_bot.py` line 201, the `website_part` variable). -/
def website_part : String :=
  "\n\nYou can see my portfolio and contact me at: https://wenqinggu.com"

/-- The fixed fallback blurb used on the error path of
`generate_customized_response` (`src/reddit_bot.py` line 212). -/
def default_intro : String :=
  "Hi there! I think my whimsical, light-hearted style would be perfect for your project. I specialize in warm, engaging illustrations that resonate with viewers of all ages."

/-- The footer of the error path of `generate_customized_response`
(`src/reddit_bot.py` line 213); note it differs from `website_part`. -/
def fallback_footer : String :=
  "\n\nYou can see my portfolio at: https://wenqinggu.com"

/-- Shallow embedding of `generate_customized_response(title, body, openai_client)`
(`src/reddit_bot.py` lines 168-213, identical in
`src/post_detector_lambda/reddit_bot.py` lines 121-166).  The external OpenAI
call is the `capability` argument, carrying the generated text on success. -/
def generate_customized_response (title body : String)
    (capability : Except Unit String) : String :=
  match capability with
  | Except.ok text => pyStrip text ++ website_part
  | Except.error _ => default_intro ++ fallback_footer

/-- A Reddit post as consumed by the scanners: `post.id`, `post.title`,
`post.selftext` (possibly `None`, cf. `post.selftext or ""`), `post.permalink`. -/
structure Post where
  id : String
  title : String
  selftext : Option String
  permalink : String
deriving DecidableEq

/-- Association-list lookup, modelling Python `dict[key]` / `key in dict`. -/
def lookup {α : Type} : List (String × α) → String → Option α
  | [], _ => none
  | (k, v) :: rest, key => if k = key then some v else lookup rest key

/-- Association-list insert-or-replace, modelling Python `dict[key] = value`. -/
def upsert {α : Type} : List (String × α) → String → α → List (String × α)
  | [], key, value => [(key, value)]
  | (k, v) :: rest, key, value =>
    if k = key then (key, value) :: rest else (k, v) :: upsert rest key value

/-- The `analysis_status` field values (`src/reddit_bot.py` lines 249, 259). -/
inductive AnalysisStatus
  | pending
  | relevant
  | irrelevant
deriving DecidableEq

/-- The `reply_status` field values of the direct variant
(`src/reddit_bot.py` lines 250, 265, 277, 299, 302). -/
inductive ReplyStatus
  | not_attempted
  | attempting
  | success
  | failure
  | not_applicable_irrelevant
deriving DecidableEq

/-- The `queue_status` field values of the deferred variant
(`src/post_detector_lambda/reddit_bot.py` lines 231, 246, 268, 290, 295, 299). -/
inductive QueueStatus
  | not_attempted
  | attempting
  | success
  | failure
  | skipped_sqs_not_configured
  | not_applicable_irrelevant
deriving DecidableEq

/-- One ProcessingRecord of the direct variant: the dict stored at
`processed_posts_log_data[post.id]` (`src/reddit_bot.py` lines 243-300). -/
structure RecordD where
  first_processed_timestamp : Nat
  first_processed_readable_time : String
  title : String
  url : String
  subreddit : String
  analysis_status : AnalysisStatus
  reply_status : ReplyStatus
  ai_confidence : Option ℚ
  reply_timestamp : Option Nat
  replied_with_response : Option String
  reply_error : Option String
deriving DecidableEq

/-- One SuccessLog entry of the direct variant
(`src/reddit_bot.py` lines 287-295). -/
structure SuccessEntryD where
  timestamp : Nat
  readable_time : String
  title : String
  url : String
  subreddit : String
  ai_confidence : ℚ
  response : String
deriving DecidableEq

/-- Observable side-effect calls made during a scanner run, recorded so that
"invokes no classification / generation / delivery / enqueue" is expressible.
`pid` is the post the call was made for. -/
inductive Event
  | classifyCall (pid : String)
  | sleepCall (pid : String) (duration : ℚ)
  | generateCall (pid : String)
  | replyCall (pid : String) (succeeded : Bool)
  | enqueueCall (pid : String) (delay : Nat) (succeeded : Bool)
deriving DecidableEq

/-- The post identifier an event concerns. -/
def Event.pid : Event → String
  | Event.classifyCall p => p
  | Event.sleepCall p _ => p
  | Event.generateCall p => p
  | Event.replyCall p _ => p
  | Event.enqueueCall p _ _ => p

/-- Environment of external effects for the direct variant
(`src/reddit_bot.py`): OpenAI calls, PRAW fetch and reply, RNG draws, clock. -/
structure EnvD where
  classify : String → String → Except Unit ClassifierResult
  generate : String → String → Except Unit String
  fetch : String → Except Unit (List Post)
  reply : String → String → Except String Unit
  uniformDraw : String → ℚ
  now : Nat
  readable : Nat → String
  replyTime : String → Nat

/-- In-memory state threaded through `check_and_reply_to_posts`
(`src/reddit_bot.py` lines 215-304): the two log dicts, the two dirty flags,
plus the event trace of external calls made so far. -/
structure StateD where
  ledger : List (String × RecordD)
  successLog : List (String × SuccessEntryD)
  new_replies_made : Bool
  log_updated_this_run : Bool
  trace : List Event
deriving DecidableEq

/-- Model of `random.uniform(a, b) = a + (b - a) * random.random()` with the
draw `r` of `random.random()` supplied by the environment. -/
def random_uniform (a b r : ℚ) : ℚ := a + (b - a) * r

/-- Model of `random.randint(lo, hi)`: an integer in `[lo, hi]`, with the raw
draw `r` supplied by the environment. -/
def random_randint (lo hi r : Nat) : Nat := lo + r % (hi - lo + 1)

/-- Body of the inner post loop of the direct
`check_and_reply_to_posts` (`src/reddit_bot.py` lines 229-302): dedup gate,
initial record, classification, and the direct-reply delivery attempt. -/
def processPostD (env : EnvD) (subreddit_name : String) (st : StateD)
    (post : Post) : StateD :=
  match lookup st.ledger post.id with
  | some _ => st
  | none =>
    let timestamp := env.now
    let readable_time := env.readable timestamp
    let url := "https://www.reddit.com" ++ post.permalink
    let rec0 : RecordD :=
      { first_processed_timestamp := timestamp
        first_processed_readable_time := readable_time
        title := post.title
        url := url
        subreddit := subreddit_name
        analysis_status := AnalysisStatus.pending
        reply_status := ReplyStatus.not_attempted
        ai_confidence := none
        reply_timestamp := none
        replied_with_response := none
        reply_error := none }
    let ledger1 := upsert st.ledger post.id rec0
    let selftext := post.selftext.getD ""
    let ai := is_suitable_art_style_match post.title selftext
      (env.classify post.title selftext)
    let is_relevant := ai.1
    let confidence := ai.2
    let rec1 :=
      { rec0 with
        analysis_status :=
          if is_relevant then AnalysisStatus.relevant else AnalysisStatus.irrelevant
        ai_confidence := some confidence }
    let ledger2 := upsert ledger1 post.id rec1
    let trace1 := st.trace ++ [Event.classifyCall post.id]
    if is_relevant then
      let rec2 := { rec1 with reply_status := ReplyStatus.attempting }
      let ledger3 := upsert ledger2 post.id rec2
      let sleep_time := random_uniform 0 15 (env.uniformDraw post.id)
      let customized_response := generate_customized_response post.title selftext
        (env.generate post.title selftext)
      let trace2 := trace1 ++
        [Event.sleepCall post.id sleep_time, Event.generateCall post.id]
      match env.reply post.id customized_response with
      | Except.ok _ =>
        let reply_timestamp := env.replyTime post.id
        let rec3 :=
          { rec2 with
            reply_status := ReplyStatus.success
            reply_timestamp := some reply_timestamp
            replied_with_response := some (truncateSummary 200 customized_response) }
        let entry : SuccessEntryD :=
          { timestamp := reply_timestamp
            readable_time := env.readable reply_timestamp
            title := post.title
            url := url
            subreddit := subreddit_name
            ai_confidence := confidence
            response := customized_response }
        { ledger := upsert ledger3 post.id rec3
          successLog := upsert st.successLog post.id entry
          new_replies_made := true
          log_updated_this_run := true
          trace := trace2 ++ [Event.replyCall post.id true] }
      | Except.error e =>
        let rec3 :=
          { rec2 with reply_status := ReplyStatus.failure, reply_error := some e }
        { ledger := upsert ledger3 post.id rec3
          successLog := st.successLog
          new_replies_made := st.new_replies_made
          log_updated_this_run := true
          trace := trace2 ++ [Event.replyCall post.id false] }
    else
      let rec2 := { rec1 with reply_status := ReplyStatus.not_applicable_irrelevant }
      { ledger := upsert ledger2 post.id rec2
        successLog := st.successLog
        new_replies_made := st.new_replies_made
        log_updated_this_run := true
        trace := trace1 }

/-- The inner `for post in subreddit.new(...)` loop of the direct variant. -/
def runPostsD (env : EnvD) (subreddit_name : String) (st : StateD) :
    List Post → StateD
  | [] => st
  | post :: rest => runPostsD env subreddit_name (processPostD env subreddit_name st post) rest

/-- The outer `for subreddit_name in subreddits_to_check` loop of the direct
variant (`src/reddit_bot.py` lines 226-303).  There is no exception handling
around the fetch, so a fetch failure propagates (`Except.error`). -/
def runSubredditsD (env : EnvD) (st : StateD) : List String → Except Unit StateD
  | [] => Except.ok st
  | subreddit_name :: rest =>
    match env.fetch subreddit_name with
    | Except.error e => Except.error e
    | Except.ok posts =>
      runSubredditsD env (runPostsD env subreddit_name st posts) rest

/-- Initial in-memory state of a direct-variant run: the two loaded blobs,
both dirty flags `False` (`src/reddit_bot.py` lines 221-222), empty trace. -/
def initStateD (ledger0 : List (String × RecordD))
    (successLog0 : List (String × SuccessEntryD)) : StateD :=
  { ledger := ledger0
    successLog := successLog0
    new_replies_made := false
    log_updated_this_run := false
    trace := [] }

/-- Shallow embedding of the direct `check_and_reply_to_posts(credentials,
subreddits_to_check, processed_posts_log_data, successful_replies_log_data)`
(`src/reddit_bot.py` lines 215-304). -/
def check_and_reply_to_posts (env : EnvD) (subreddits_to_check : List String)
    (ledger0 : List (String × RecordD))
    (successLog0 : List (String × SuccessEntryD)) : Except Unit StateD :=
  runSubredditsD env (initStateD ledger0 successLog0) subreddits_to_check

/-- Model of `save_processed_posts_log(log_data, log_file, log_updated_this_run)`
(`src/reddit_bot.py` lines 51-58) and of the `if log_updated:` S3 write in
`src/main.py` lines 89-93: the stored blob is replaced by the in-memory data
only when the dirty flag is set. -/
def save_processed_posts_log (log_data stored : List (String × RecordD))
    (log_updated_this_run : Bool) : List (String × RecordD) :=
  if log_updated_this_run then log_data else stored

/-- Model of `save_successful_replies_log(data, new_replies_were_made)`
(`src/reddit_bot.py` lines 74-81) and of the `if new_replies_made:` S3 write in
`src/main.py` lines 96-100. -/
def save_successful_replies_log (data stored : List (String × SuccessEntryD))
    (new_replies_were_made : Bool) : List (String × SuccessEntryD) :=
  if new_replies_were_made then data else stored

/-- All posts a run will see, in order: the concatenation of the per-subreddit
fetch results (empty for a failing fetch). -/
def fetchedPostsD (env : EnvD) (subs : List String) : List Post :=
  subs.flatMap fun s =>
    match env.fetch s with
    | Except.ok posts => posts
    | Except.error _ => []

/-- Whether some fetched post is absent from the initial Ledger. -/
def anyNewPost (ledger0 : List (String × RecordD)) (posts : List Post) : Bool :=
  posts.any fun p => (lookup ledger0 p.id).isNone

/-- Whether the trace contains a successful direct reply. -/
def hasReplySuccess (trace : List Event) : Bool :=
  trace.any fun e =>
    match e with
    | Event.replyCall _ true => true
    | _ => false

end RedditBot

namespace PostDetector

open RedditBot

/-- One ProcessingRecord of the deferred variant: the dict stored at
`processed_posts_log_data[post.id]`
(`src/post_detector_lambda/reddit_bot.py` lines 224-297). -/
structure RecordQ where
  first_processed_timestamp : Nat
  first_processed_readable_time : String
  title : String
  url : String
  subreddit : String
  analysis_status : AnalysisStatus
  queue_status : QueueStatus
  ai_confidence : Option ℚ
  queue_timestamp : Option Nat
  queued_message_summary : Option String
  queue_delay_seconds : Option Nat
  queue_error : Option String
  queue_error_type : Option String
deriving DecidableEq

/-- One successfully-queued-messages log entry
(`src/post_detector_lambda/reddit_bot.py` lines 278-287). -/
structure SuccessEntryQ where
  timestamp : Nat
  readable_time : String
  title : String
  url : String
  subreddit : String
  ai_confidence : ℚ
  queued_message_summary : String
  delay_seconds : Nat
deriving DecidableEq

/-- The SQS message payload `message_to_send`
(`src/post_detector_lambda/reddit_bot.py` lines 251-258). -/
structure DeliveryMessage where
  postId : String
  postTitle : String
  postUrl : String
  subreddit : String
  responseBody : String
  aiConfidence : ℚ
deriving DecidableEq

/-- Environment of external effects for the deferred variant
(`src/post_detector_lambda/reddit_bot.py`): OpenAI calls, PRAW fetch, the SQS
`send_message` call (whose error carries `str(e)` and `type(e).__name__`),
RNG draw for `random.randint`, clock. -/
structure EnvQ where
  classify : String → String → Except Unit ClassifierResult
  generate : String → String → Except Unit String
  fetch : String → Except Unit (List Post)
  send : String → DeliveryMessage → Nat → Except (String × String) Unit
  delayDraw : String → Nat
  now : Nat
  readable : Nat → String
  queueTime : String → Nat

/-- In-memory state threaded through the deferred `check_and_reply_to_posts`
(`src/post_detector_lambda/reddit_bot.py` lines 168-301). -/
structure StateQ where
  ledger : List (String × RecordQ)
  successLog : List (String × SuccessEntryQ)
  new_messages_queued : Bool
  log_updated_this_run : Bool
  trace : List Event
deriving DecidableEq

/-- Body of the inner post loop of the deferred `check_and_reply_to_posts`
(`src/post_detector_lambda/reddit_bot.py` lines 210-299): dedup gate, initial
record, classification, then generate + SQS enqueue with a random
`DelaySeconds` in `[60, 600]`, or `skipped_sqs_not_configured` when
`sqs_queue_url` is absent. -/
def processPostQ (env : EnvQ) (sqs_queue_url : Option String)
    (subreddit_name : String) (st : StateQ) (post : Post) : StateQ :=
  match lookup st.ledger post.id with
  | some _ => st
  | none =>
    let timestamp := env.now
    let readable_time := env.readable timestamp
    let url := "https://www.reddit.com" ++ post.permalink
    let rec0 : RecordQ :=
      { first_processed_timestamp := timestamp
        first_processed_readable_time := readable_time
        title := post.title
        url := url
        subreddit := subreddit_name
        analysis_status := AnalysisStatus.pending
        queue_status := QueueStatus.not_attempted
        ai_confidence := none
        queue_timestamp := none
        queued_message_summary := none
        queue_delay_seconds := none
        queue_error := none
        queue_error_type := none }
    let ledger1 := upsert st.ledger post.id rec0
    let selftext := post.selftext.getD ""
    let ai := is_suitable_art_style_match post.title selftext
      (env.classify post.title selftext)
    let is_relevant := ai.1
    let confidence := ai.2
    let rec1 :=
      { rec0 with
        analysis_status :=
          if is_relevant then AnalysisStatus.relevant else AnalysisStatus.irrelevant
        ai_confidence := some confidence }
    let ledger2 := upsert ledger1 post.id rec1
    let trace1 := st.trace ++ [Event.classifyCall post.id]
    if is_relevant then
      let rec2 := { rec1 with queue_status := QueueStatus.attempting }
      let ledger3 := upsert ledger2 post.id rec2
      let customized_response := generate_customized_response post.title selftext
        (env.generate post.title selftext)
      let trace2 := trace1 ++ [Event.generateCall post.id]
      match sqs_queue_url with
      | some queue_url =>
        let message_to_send : DeliveryMessage :=
          { postId := post.id
            postTitle := post.title
            postUrl := url
            subreddit := subreddit_name
            responseBody := customized_response
            aiConfidence := confidence }
        let delay_seconds := random_randint 60 600 (env.delayDraw post.id)
        match env.send queue_url message_to_send delay_seconds with
        | Except.ok _ =>
          let queue_timestamp := env.queueTime post.id
          let rec3 :=
            { rec2 with
              queue_status := QueueStatus.success
              queue_timestamp := some queue_timestamp
              queued_message_summary := some (truncateSummary 100 customized_response)
              queue_delay_seconds := some delay_seconds }
          let entry : SuccessEntryQ :=
            { timestamp := queue_timestamp
              readable_time := env.readable queue_timestamp
              title := post.title
              url := url
              subreddit := subreddit_name
              ai_confidence := confidence
              queued_message_summary := truncateSummary 200 customized_response
              delay_seconds := delay_seconds }
          { ledger := upsert ledger3 post.id rec3
            successLog := upsert st.successLog post.id entry
            new_messages_queued := true
            log_updated_this_run := true
            trace := trace2 ++ [Event.enqueueCall post.id delay_seconds true] }
        | Except.error e =>
          let rec3 :=
            { rec2 with
              queue_status := QueueStatus.failure
              queue_error := some e.1
              queue_error_type := some e.2 }
          { ledger := upsert ledger3 post.id rec3
            successLog := st.successLog
            new_messages_queued := st.new_messages_queued
            log_updated_this_run := true
            trace := trace2 ++ [Event.enqueueCall post.id delay_seconds false] }
      | none =>
        let rec3 := { rec2 with queue_status := QueueStatus.skipped_sqs_not_configured }
        { ledger := upsert ledger3 post.id rec3
          successLog := st.successLog
          new_messages_queued := st.new_messages_queued
          log_updated_this_run := true
          trace := trace2 }
    else
      let rec2 := { rec1 with queue_status := QueueStatus.not_applicable_irrelevant }
      { ledger := upsert ledger2 post.id rec2
        successLog := st.successLog
        new_messages_queued := st.new_messages_queued
        log_updated_this_run := true
        trace := trace1 }

/-- The inner `for post in posts_iterable` loop of the deferred variant. -/
def runPostsQ (env : EnvQ) (sqs_queue_url : Option String)
    (subreddit_name : String) (st : StateQ) : List Post → StateQ
  | [] => st
  | post :: rest =>
    runPostsQ env sqs_queue_url subreddit_name
      (processPostQ env sqs_queue_url subreddit_name st post) rest

/-- The outer subreddit loop of the deferred variant
(`src/post_detector_lambda/reddit_bot.py` lines 187-299): a fetch exception is
caught and the subreddit skipped with `continue`. -/
def runSubredditsQ (env : EnvQ) (sqs_queue_url : Option String) (st : StateQ) :
    List String → StateQ
  | [] => st
  | subreddit_name :: rest =>
    match env.fetch subreddit_name with
    | Except.error _ => runSubredditsQ env sqs_queue_url st rest
    | Except.ok posts =>
      runSubredditsQ env sqs_queue_url
        (runPostsQ env sqs_queue_url subreddit_name st posts) rest

/-- Initial in-memory state of a deferred-variant run
(`src/post_detector_lambda/reddit_bot.py` lines 182-183). -/
def initStateQ (ledger0 : List (String × RecordQ))
    (successLog0 : List (String × SuccessEntryQ)) : StateQ :=
  { ledger := ledger0
    successLog := successLog0
    new_messages_queued := false
    log_updated_this_run := false
    trace := [] }

/-- Shallow embedding of the deferred `check_and_reply_to_posts`
(`src/post_detector_lambda/reddit_bot.py` lines 168-301).  `sqs_queue_url` is
`credentials.get("SQS_QUEUE_URL")`; the SQS client exists iff it is present. -/
def check_and_reply_to_posts (env : EnvQ) (sqs_queue_url : Option String)
    (subreddits_to_check : List String) (ledger0 : List (String × RecordQ))
    (successLog0 : List (String × SuccessEntryQ)) : StateQ :=
  runSubredditsQ env sqs_queue_url (initStateQ ledger0 successLog0) subreddits_to_check

end PostDetector

namespace ReplyHandler

/-- The observable content of one SQS record's `body` string as the consumer
inspects it (`src/reply_handler_lambda/reply_handler_lambda.py` lines 93-107):
falsy (`None` or empty), JSON that fails to parse, or parsed JSON with the
three fields the consumer reads via `.get`. -/
inductive SQSBody
  | falsy
  | invalidJson
  | parsed (postId : Option String) (postTitle : Option String)
      (responseBody : Option String)
deriving DecidableEq

/-- One record of the SQS event batch. -/
structure SQSRecord where
  messageId : String
  body : SQSBody
deriving DecidableEq

/-- Python truthiness of an optional string: `None` and `""` are falsy
(the `if not post_id or not response_body` check). -/
def truthy : Option String → Bool
  | none => false
  | some s => !(s = "")

/-- Environment of the reply-handler lambda: credential completeness, PRAW
initialization, and the `submission.reply` call (error = any caught
exception). -/
structure EnvR where
  credsOk : Bool
  redditInit : Except Unit Unit
  reply : String → String → Except Unit Unit

/-- Per-batch counters plus the list of post ids for which a reply was
actually attempted (i.e. `submission.reply` was called). -/
structure CounterState where
  successful_replies : Nat
  failed_replies : Nat
  attempts : List String
deriving DecidableEq

/-- Body of the `for record in event.get('Records', [])` loop
(`src/reply_handler_lambda/reply_handler_lambda.py` lines 87-137): every
malformed payload or failed reply increments `failed_replies` for that record
only; a confirmed `submission.reply` increments `successful_replies`. -/
def processRecord (env : EnvR) (st : CounterState) (record : SQSRecord) :
    CounterState :=
  match record.body with
  | SQSBody.falsy => { st with failed_replies := st.failed_replies + 1 }
  | SQSBody.invalidJson => { st with failed_replies := st.failed_replies + 1 }
  | SQSBody.parsed postId _postTitle responseBody =>
    if truthy postId && truthy responseBody then
      let pid := postId.getD ""
      let response_body := responseBody.getD ""
      match env.reply pid response_body with
      | Except.ok _ =>
        { st with
          successful_replies := st.successful_replies + 1
          attempts := st.attempts ++ [pid] }
      | Except.error _ =>
        { st with
          failed_replies := st.failed_replies + 1
          attempts := st.attempts ++ [pid] }
    else { st with failed_replies := st.failed_replies + 1 }

/-- The handler's structured return value (status code and the two counters). -/
structure HandlerResult where
  statusCode : Nat
  successful_replies : Nat
  failed_replies : Nat
  attempts : List String
deriving DecidableEq

/-- Shallow embedding of the reply-handler `lambda_handler(event, context)`
(`src/reply_handler_lambda/reply_handler_lambda.py` lines 54-151): missing
credentials return a 500 result; a PRAW initialization failure re-raises
(`Except.error`); otherwise every record of the batch is processed and a 200
result with the final counters is returned. -/
def lambda_handler (env : EnvR) (records : List SQSRecord) :
    Except Unit HandlerResult :=
  if !env.credsOk then
    Except.ok
      { statusCode := 500, successful_replies := 0, failed_replies := 0, attempts := [] }
  else
    match env.redditInit with
    | Except.error e => Except.error e
    | Except.ok _ =>
      let final := records.foldl (processRecord env)
        { successful_replies := 0, failed_replies := 0, attempts := [] }
      Except.ok
        { statusCode := 200
          successful_replies := final.successful_replies
          failed_replies := final.failed_replies
          attempts := final.attempts }

end ReplyHandler

namespace RedditBot

/-- Concrete direct-variant environment whose fetch raises for subreddit
`"suba"` and returns an empty listing otherwise; used for closed instances of
run-level statements. -/
def envFetchFailD : EnvD :=
  { classify := fun _ _ => Except.error ()
    generate := fun _ _ => Except.error ()
    fetch := fun s => if s = "suba" then Except.error () else Except.ok []
    reply := fun _ _ => Except.ok ()
    uniformDraw := fun _ => 0
    now := 0
    readable := fun _ => ""
    replyTime := fun _ => 0 }

/-- A concrete direct-variant ProcessingRecord whose delivery ended in
`failure`, used as a pre-existing Ledger entry in closed instances. -/
def sampleRecordD : RecordD :=
  { first_processed_timestamp := 1
    first_processed_readable_time := "old time"
    title := "old title"
    url := "old url"
    subreddit := "olds"
    analysis_status := AnalysisStatus.relevant
    reply_status := ReplyStatus.failure
    ai_confidence := some 1
    reply_timestamp := none
    replied_with_response := none
    reply_error := some "boom" }

/-- A concrete direct-variant environment whose fetch returns one post with
identifier `"p1"` for every subreddit. -/
def envSeenD : EnvD :=
  { classify := fun _ _ => Except.ok ⟨true, 1, false⟩
    generate := fun _ _ => Except.ok "hi"
    fetch := fun _ => Except.ok [⟨"p1", "Need artist", none, "/r/x"⟩]
    reply := fun _ _ => Except.ok ()
    uniformDraw := fun _ => 0
    now := 0
    readable := fun _ => ""
    replyTime := fun _ => 0 }

end RedditBot

namespace PostDetector

open RedditBot

/-- Concrete deferred-variant environment whose fetch raises for subreddit
`"suba"` and returns an empty listing otherwise. -/
def envFetchFailQ : EnvQ :=
  { classify := fun _ _ => Except.error ()
    generate := fun _ _ => Except.error ()
    fetch := fun s => if s = "suba" then Except.error () else Except.ok []
    send := fun _ _ _ => Except.ok ()
    delayDraw := fun _ => 0
    now := 0
    readable := fun _ => ""
    queueTime := fun _ => 0 }

/-- A concrete deferred-variant ProcessingRecord whose enqueue ended in
`failure`, used as a pre-existing Ledger entry in closed instances. -/
def sampleRecordQ : RecordQ :=
  { first_processed_timestamp := 1
    first_processed_readable_time := "old time"
    title := "old title"
    url := "old url"
    subreddit := "olds"
    analysis_status := AnalysisStatus.relevant
    queue_status := QueueStatus.failure
    ai_confidence := some 1
    queue_timestamp := none
    queued_message_summary := none
    queue_delay_seconds := none
    queue_error := some "boom"
    queue_error_type := some "Exception" }

/-- A concrete deferred-variant environment whose fetch returns one post with
identifier `"p1"` for every subreddit. -/
def envSeenQ : EnvQ :=
  { classify := fun _ _ => Except.ok ⟨true, 1, false⟩
    generate := fun _ _ => Except.ok "hi"
    fetch := fun _ => Except.ok [⟨"p1", "Need artist", none, "/r/x"⟩]
    send := fun _ _ _ => Except.ok ()
    delayDraw := fun _ => 0
    now := 0
    readable := fun _ => ""
    queueTime := fun _ => 0 }

end PostDetector

namespace RedditBot

example :
    is_suitable_art_style_match "Need artist" "b"
      (Except.ok ⟨true, mkRat 7 10, false⟩) = (true, mkRat 7 10) := by decide

example :
    is_suitable_art_style_match "Need artist" "b"
      (Except.ok ⟨true, mkRat 69999 100000, false⟩)
      = (false, mkRat 69999 100000) := by decide

example :
    is_suitable_art_style_match "a [FOR HIRE] artist" "b"
      (Except.ok ⟨true, 1, false⟩) = (false, 0) := by decide

example :
    is_suitable_art_style_match "Need artist" "b" (Except.error ()) = (false, 0) := by
  decide

example :
    generate_customized_response "t" "b" (Except.ok "  hello  ")
      = "hello" ++ website_part := by decide

end RedditBot

namespace RedditBot

theorem lookup_upsert_self {α : Type} (l : List (String × α)) (k : String) (v : α) :
    lookup (upsert l k v) k = some v := by
  induction l with
  | nil => simp [upsert, lookup]
  | cons hd tl ih =>
    obtain ⟨k', v'⟩ := hd
    by_cases h : k' = k
    · simp [upsert, lookup, h]
    · simp [upsert, lookup, h, ih]

theorem lookup_upsert_ne {α : Type} (l : List (String × α)) (k key : String) (v : α)
    (h : k ≠ key) : lookup (upsert l k v) key = lookup l key := by
  induction l with
  | nil => simp [upsert, lookup, h]
  | cons hd tl ih =>
    obtain ⟨k', v'⟩ := hd
    by_cases h' : k' = k
    · subst h'
      simp [upsert, lookup, h]
    · simp [upsert, lookup, h', ih]

theorem confidence_threshold_eq : confidence_threshold = (7 : ℚ)/10 := by
  norm_num [confidence_threshold, mkRat, Rat.normalize]

/-- C3: for every classifier invocation that reaches the external capability
(no pre-filter hit, no artist-seeking-work flag), the adapter's relevance
result is `true` iff the capability reports `is_relevant = true` and
confidence ≥ 0.7 (= 7/10 exactly, so confidence exactly 0.7 yields `true` and
anything strictly below yields `false`). -/
theorem confidence_threshold_boundary (title body : String) (r : ClassifierResult)
    (hpre : hasForHireTag title = false)
    (hwork : r.is_artist_seeking_work = false) :
    confidence_threshold = (7 : ℚ)/10
    ∧ ((is_suitable_art_style_match title body (Except.ok r)).1 = true
        ↔ (r.is_relevant = true ∧ confidence_threshold ≤ r.confidence)) := by
  refine ⟨confidence_threshold_eq, ?_⟩
  by_cases h : r.is_relevant = true ∧ confidence_threshold ≤ r.confidence
  · simp [is_suitable_art_style_match, hpre, hwork, h]
  · simp only [is_suitable_art_style_match, hpre, Bool.false_eq_true, if_false, hwork,
      if_neg h]
    simpa using h

/-- Witness for C3 at concrete inputs: confidence exactly 0.7 is relevant,
0.69999 is not. -/
theorem confidence_threshold_boundary_witness :
    (is_suitable_art_style_match "Need an artist" "body"
      (Except.ok ⟨true, mkRat 7 10, false⟩)).1 = true
    ∧ (is_suitable_art_style_match "Need an artist" "body"
      (Except.ok ⟨true, mkRat 69999 100000, false⟩)).1 = false := by
  constructor
  · exact (confidence_threshold_boundary "Need an artist" "body"
      ⟨true, mkRat 7 10, false⟩ (by decide) (by decide)).2.mpr ⟨rfl, by decide⟩
  · have h := (confidence_threshold_boundary "Need an artist" "body"
      ⟨true, mkRat 69999 100000, false⟩ (by decide) (by decide)).2
    by_contra hb
    simp only [Bool.not_eq_false] at hb
    have := h.mp hb
    revert this
    decide

/-- C2: if the external classification capability raises, the adapter returns
`(false, 0.0)` without propagating, and the post's resulting ProcessingRecord
has `analysis_status = irrelevant`, `ai_confidence = 0.0`, and terminal
`reply_status = not_applicable_irrelevant`. -/
theorem fail_closed_classification (env : EnvD) (subreddit_name : String)
    (st : StateD) (post : Post)
    (hnew : lookup st.ledger post.id = none)
    (herr : env.classify post.title (post.selftext.getD "") = Except.error ()) :
    is_suitable_art_style_match post.title (post.selftext.getD "")
      (env.classify post.title (post.selftext.getD "")) = (false, 0)
    ∧ ∃ r : RecordD,
        lookup (processPostD env subreddit_name st post).ledger post.id = some r
        ∧ r.analysis_status = AnalysisStatus.irrelevant
        ∧ r.ai_confidence = some 0
        ∧ r.reply_status = ReplyStatus.not_applicable_irrelevant := by
  have hcls : is_suitable_art_style_match post.title (post.selftext.getD "")
      (env.classify post.title (post.selftext.getD "")) = (false, 0) := by
    rw [herr]
    unfold is_suitable_art_style_match
    split <;> rfl
  refine ⟨hcls, ?_⟩
  unfold processPostD
  rw [hnew]
  simp only [hcls]
  exact ⟨_, lookup_upsert_self _ _ _, rfl, rfl, rfl⟩

/-- Witness for C2: a concrete new post with a raising classifier. -/
theorem fail_closed_classification_witness :
    ∃ r : RecordD,
      lookup (processPostD
        { classify := fun _ _ => Except.error ()
          generate := fun _ _ => Except.error ()
          fetch := fun _ => Except.ok []
          reply := fun _ _ => Except.ok ()
          uniformDraw := fun _ => 0
          now := 0
          readable := fun _ => ""
          replyTime := fun _ => 0 }
        "suba" (initStateD [] []) ⟨"p1", "t", none, "/r/x"⟩).ledger "p1" = some r
      ∧ r.analysis_status = AnalysisStatus.irrelevant
      ∧ r.ai_confidence = some 0
      ∧ r.reply_status = ReplyStatus.not_applicable_irrelevant :=
  (fail_closed_classification _ "suba" (initStateD [] []) ⟨"p1", "t", none, "/r/x"⟩
    rfl rfl).2

end RedditBot

namespace PostDetector

open RedditBot

/-- C9: in the deferred strategy, a relevant new post processed while no queue
destination is configured ends with terminal
`queue_status = skipped_sqs_not_configured` (not `failure`), adds no
SuccessLog entry, leaves the queued flag unchanged, and the loop continues
with the subsequent posts. -/
theorem unconfigured_transport_skip (env : EnvQ) (subreddit_name : String)
    (st : StateQ) (post : Post)
    (hnew : lookup st.ledger post.id = none)
    (hrel : (is_suitable_art_style_match post.title (post.selftext.getD "")
      (env.classify post.title (post.selftext.getD ""))).1 = true) :
    (∃ r : RecordQ,
      lookup (processPostQ env none subreddit_name st post).ledger post.id = some r
      ∧ r.queue_status = QueueStatus.skipped_sqs_not_configured
      ∧ r.queue_status ≠ QueueStatus.failure)
    ∧ (processPostQ env none subreddit_name st post).successLog = st.successLog
    ∧ (processPostQ env none subreddit_name st post).new_messages_queued
        = st.new_messages_queued
    ∧ (∀ rest, runPostsQ env none subreddit_name st (post :: rest)
        = runPostsQ env none subreddit_name
            (processPostQ env none subreddit_name st post) rest) := by
  refine ⟨?_, ?_, ?_, fun rest => rfl⟩
  · unfold processPostQ
    rw [hnew]
    simp only [hrel, if_true]
    exact ⟨_, lookup_upsert_self _ _ _, rfl, fun h => QueueStatus.noConfusion h⟩
  · unfold processPostQ
    rw [hnew]
    simp [hrel]
  · unfold processPostQ
    rw [hnew]
    simp [hrel]

/-- Witness for C9: a concrete relevant new post with no queue URL. -/
theorem unconfigured_transport_skip_witness :
    ∃ r : RecordQ,
      lookup (processPostQ
        { classify := fun _ _ => Except.ok ⟨true, 1, false⟩
          generate := fun _ _ => Except.error ()
          fetch := fun _ => Except.ok []
          send := fun _ _ _ => Except.ok ()
          delayDraw := fun _ => 0
          now := 0
          readable := fun _ => ""
          queueTime := fun _ => 0 }
        none "suba" (initStateQ [] []) ⟨"p1", "Need artist", none, "/r/x"⟩).ledger "p1"
        = some r
      ∧ r.queue_status = QueueStatus.skipped_sqs_not_configured
      ∧ r.queue_status ≠ QueueStatus.failure :=
  (unconfigured_transport_skip _ "suba" (initStateQ [] [])
    ⟨"p1", "Need artist", none, "/r/x"⟩ rfl (by decide)).1

end PostDetector

namespace ReplyHandler

theorem processRecord_total_count (env : EnvR) (st : CounterState)
    (record : SQSRecord) :
    (processRecord env st record).successful_replies
      + (processRecord env st record).failed_replies
      = st.successful_replies + st.failed_replies + 1 := by
  unfold processRecord
  rcases record with ⟨mid, body⟩
  cases body with
  | falsy => simp only []; omega
  | invalidJson => simp only []; omega
  | parsed postId postTitle responseBody =>
    by_cases h : truthy postId && truthy responseBody
    · simp only [h, if_true]
      cases env.reply (postId.getD "") (responseBody.getD "") <;> simp only [] <;> omega
    · simp only [h, if_false, Bool.false_eq_true]
      omega

theorem foldl_processRecord_count (env : EnvR) (records : List SQSRecord) :
    ∀ st : CounterState,
      (records.foldl (processRecord env) st).successful_replies
        + (records.foldl (processRecord env) st).failed_replies
        = st.successful_replies + st.failed_replies + records.length := by
  induction records with
  | nil => intro st; simp
  | cons r rest ih =>
    intro st
    simp only [List.foldl_cons, List.length_cons]
    rw [ih (processRecord env st r), processRecord_total_count]
    omega

/-- C10: for every SQS event whose credential check passes and whose Reddit
client initializes, each record increments exactly one of the two counters, so
`successful_replies + failed_replies` equals the number of records, and the
handler returns status code 200 regardless of individual failures. -/
theorem consumer_counter_completeness (env : EnvR) (records : List SQSRecord)
    (hc : env.credsOk = true) (hi : env.redditInit = Except.ok ()) :
    ∃ res : HandlerResult,
      lambda_handler env records = Except.ok res
      ∧ res.statusCode = 200
      ∧ res.successful_replies + res.failed_replies = records.length := by
  unfold lambda_handler
  rw [hc, hi]
  simp only [Bool.not_true, Bool.false_eq_true, if_false]
  refine ⟨_, rfl, rfl, ?_⟩
  simpa using foldl_processRecord_count env records
    { successful_replies := 0, failed_replies := 0, attempts := [] }

/-- Witness for C10: a concrete 2-record batch (one reply succeeds, one body is
malformed) yields 200 and counters summing to 2. -/
theorem consumer_counter_completeness_witness :
    ∃ res : HandlerResult,
      lambda_handler
        { credsOk := true, redditInit := Except.ok (), reply := fun _ _ => Except.ok () }
        [⟨"m1", SQSBody.parsed (some "p1") none (some "hello")⟩,
         ⟨"m2", SQSBody.invalidJson⟩] = Except.ok res
      ∧ res.statusCode = 200
      ∧ res.successful_replies + res.failed_replies = 2 :=
  consumer_counter_completeness _ _ rfl rfl

end ReplyHandler

namespace RedditBot

set_option maxRecDepth 40000 in
/-- C4 counterexample: when the generation capability raises, the returned
text does not contain (hence does not end with) the fixed contact/portfolio
footer `website_part` that the success path appends, and it is not the
fallback blurb followed by that same footer: the fallback appends the
different footer `fallback_footer`.  This refutes the claim's "the same
footer" for the failure case. -/
theorem generation_footer_counterexample :
    charInfixOf website_part.data
      (generate_customized_response "t" "b" (Except.error ())).data = false
    ∧ generate_customized_response "t" "b" (Except.error ())
        ≠ default_intro ++ website_part := by
  constructor
  · decide
  · decide

/-- C4 amended: `generate` never raises and, for every input, returns a
non-empty string ending in the portfolio URL; on success the result is the
trimmed capability output followed by the contact footer `website_part` (so it
ends with that footer); on failure the result is exactly the fixed fallback
blurb followed by the slightly different footer `fallback_footer`. -/
theorem generation_total_with_footer (title body : String)
    (capability : Except Unit String) :
    (generate_customized_response title body capability).data ≠ []
    ∧ "https://wenqinggu.com".data
        <:+ (generate_customized_response title body capability).data
    ∧ (∀ text, capability = Except.ok text →
        generate_customized_response title body capability
          = pyStrip text ++ website_part
        ∧ website_part.data
            <:+ (generate_customized_response title body capability).data)
    ∧ (∀ e, capability = Except.error e →
        generate_customized_response title body capability
          = default_intro ++ fallback_footer) := by
  cases capability with
  | ok text =>
    refine ⟨?_, ?_, ?_, ?_⟩
    · show (pyStrip text ++ website_part).data ≠ []
      rw [String.data_append]
      intro h
      rw [List.append_eq_nil] at h
      exact absurd h.2 (by decide)
    · show "https://wenqinggu.com".data <:+ (pyStrip text ++ website_part).data
      rw [String.data_append]
      exact List.IsSuffix.trans (by decide) (List.suffix_append _ _)
    · intro t ht
      injection ht with h
      constructor
      · show pyStrip text ++ website_part = pyStrip t ++ website_part
        rw [h]
      · show website_part.data <:+ (pyStrip text ++ website_part).data
        rw [String.data_append]
        exact List.suffix_append _ _
    · intro e he
      exact Except.noConfusion he
  | error e =>
    refine ⟨?_, ?_, ?_, ?_⟩
    · show (default_intro ++ fallback_footer).data ≠ []
      rw [String.data_append]
      intro h
      rw [List.append_eq_nil] at h
      exact absurd h.2 (by decide)
    · show "https://wenqinggu.com".data <:+ (default_intro ++ fallback_footer).data
      rw [String.data_append]
      exact List.IsSuffix.trans (by decide) (List.suffix_append _ _)
    · intro t ht
      exact Except.noConfusion ht
    · intro e' he
      rfl

/-- Witness for C4 (amended): the failure case at concrete inputs is exactly
the fallback blurb plus the fallback footer, and the success case at a
concrete input ends with the contact footer. -/
theorem generation_total_with_footer_witness :
    generate_customized_response "t" "b" (Except.error ())
      = default_intro ++ fallback_footer
    ∧ website_part.data
        <:+ (generate_customized_response "t" "b" (Except.ok "hi")).data :=
  ⟨(generation_total_with_footer "t" "b" (Except.error ())).2.2.2 () rfl,
   ((generation_total_with_footer "t" "b" (Except.ok "hi")).2.2.1 "hi" rfl).2⟩

/-- C5 counterexample: in the direct variant (`src/reddit_bot.py` lines
226-229) there is no exception handling around the per-subreddit fetch, so a
fetch failure for the first subreddit aborts the whole run (the remaining
subreddit `"subb"` is never processed) instead of being caught and skipped. -/
theorem fetch_failure_aborts_direct_run :
    check_and_reply_to_posts envFetchFailD ["suba", "subb"] [] []
      = Except.error () := by
  rfl

end RedditBot

namespace PostDetector

open RedditBot

/-- C5 amended: per-subreddit fetch-failure isolation holds in the deferred
(post_detector_lambda) scanner only: there a fetch exception is caught, the
subreddit is skipped, and the run continues exactly as the run on the
remaining subreddits; in the direct scanner a fetch failure propagates and
aborts the run. -/
theorem fetch_failure_isolation_deferred (env : EnvQ) (sqs_queue_url : Option String)
    (st : StateQ) (s : String) (rest : List String) (e : Unit)
    (herr : env.fetch s = Except.error e) :
    runSubredditsQ env sqs_queue_url st (s :: rest)
      = runSubredditsQ env sqs_queue_url st rest := by
  have hstep : runSubredditsQ env sqs_queue_url st (s :: rest)
      = match env.fetch s with
        | Except.error _ => runSubredditsQ env sqs_queue_url st rest
        | Except.ok posts =>
          runSubredditsQ env sqs_queue_url
            (runPostsQ env sqs_queue_url s st posts) rest := rfl
  rw [hstep, herr]

/-- Witness for C5 (amended): with a concrete environment whose fetch raises
for `"suba"`, the deferred run on `["suba", "subb"]` equals the run on
`["subb"]`. -/
theorem fetch_failure_isolation_deferred_witness :
    runSubredditsQ envFetchFailQ none (initStateQ [] []) ["suba", "subb"]
      = runSubredditsQ envFetchFailQ none (initStateQ [] []) ["subb"] :=
  fetch_failure_isolation_deferred envFetchFailQ none (initStateQ [] [])
    "suba" ["subb"] () rfl

end PostDetector

namespace ReplyHandler

/-- C7: for a 3-message batch whose second message parses but lacks a truthy
`postId` (or `responseBody`), the consumer still attempts replies for messages
1 and 3 (in order), `successful_replies` counts exactly the messages whose
reply call succeeded, and `failed_replies` is exactly one failure from message
2 plus one for each of messages 1 and 3 whose reply call failed; no
per-message error aborts the rest of the batch. -/
theorem batch_isolation (env : EnvR)
    (m1 m2 m3 pid1 body1 pid3 body3 : String)
    (t1 t2 t3 p2 b2 : Option String)
    (hc : env.credsOk = true) (hi : env.redditInit = Except.ok ())
    (hp1 : pid1 ≠ "") (hb1 : body1 ≠ "") (hp3 : pid3 ≠ "") (hb3 : body3 ≠ "")
    (h2 : (truthy p2 && truthy b2) = false) :
    ∃ res : HandlerResult,
      lambda_handler env
        [⟨m1, SQSBody.parsed (some pid1) t1 (some body1)⟩,
         ⟨m2, SQSBody.parsed p2 t2 b2⟩,
         ⟨m3, SQSBody.parsed (some pid3) t3 (some body3)⟩] = Except.ok res
      ∧ res.attempts = [pid1, pid3]
      ∧ res.successful_replies
          = (if (env.reply pid1 body1).isOk then 1 else 0)
            + (if (env.reply pid3 body3).isOk then 1 else 0)
      ∧ res.failed_replies
          = 1 + (if (env.reply pid1 body1).isOk then 0 else 1)
            + (if (env.reply pid3 body3).isOk then 0 else 1) := by
  unfold lambda_handler
  rw [hc, hi]
  simp only [Bool.not_true, Bool.false_eq_true, if_false]
  refine ⟨_, rfl, ?_⟩
  have htr1 : (truthy (some pid1) && truthy (some body1)) = true := by
    simp [truthy, hp1, hb1]
  have htr3 : (truthy (some pid3) && truthy (some body3)) = true := by
    simp [truthy, hp3, hb3]
  simp only [List.foldl_cons, List.foldl_nil]
  cases hr1 : env.reply pid1 body1 with
  | ok u1 =>
    cases hr3 : env.reply pid3 body3 with
    | ok u3 =>
      simp [processRecord, htr1, htr3, h2, hr1, hr3, Except.isOk, Except.toBool]
    | error e3 =>
      simp [processRecord, htr1, htr3, h2, hr1, hr3, Except.isOk, Except.toBool]
  | error e1 =>
    cases hr3 : env.reply pid3 body3 with
    | ok u3 =>
      simp [processRecord, htr1, htr3, h2, hr1, hr3, Except.isOk, Except.toBool]
    | error e3 =>
      simp [processRecord, htr1, htr3, h2, hr1, hr3, Except.isOk, Except.toBool]

/-- Witness for C7: concrete batch where message 1 succeeds, message 2 lacks a
postId, message 3's reply call fails. -/
theorem batch_isolation_witness :
    ∃ res : HandlerResult,
      lambda_handler
        { credsOk := true
          redditInit := Except.ok ()
          reply := fun pid _ => if pid = "p3" then Except.error () else Except.ok () }
        [⟨"m1", SQSBody.parsed (some "p1") (some "T1") (some "reply one")⟩,
         ⟨"m2", SQSBody.parsed none (some "T2") (some "reply two")⟩,
         ⟨"m3", SQSBody.parsed (some "p3") (some "T3") (some "reply three")⟩]
        = Except.ok res
      ∧ res.attempts = ["p1", "p3"]
      ∧ res.successful_replies
          = (if (Except.ok () : Except Unit Unit).isOk then 1 else 0)
            + (if (Except.error () : Except Unit Unit).isOk then 1 else 0)
      ∧ res.failed_replies
          = 1 + (if (Except.ok () : Except Unit Unit).isOk then 0 else 1)
            + (if (Except.error () : Except Unit Unit).isOk then 0 else 1) := by
  have h := batch_isolation
    { credsOk := true
      redditInit := Except.ok ()
      reply := fun pid _ => if pid = "p3" then Except.error () else Except.ok () }
    "m1" "m2" "m3" "p1" "reply one" "p3" "reply three"
    (some "T1") (some "T2") (some "T3") none (some "reply two")
    rfl rfl (by decide) (by decide) (by decide) (by decide) (by decide)
  simpa using h

end ReplyHandler

namespace PostDetector

open RedditBot

/-- C8: for every relevant new post handled with a configured queue URL, the
deferred strategy's chosen delay `random_randint 60 600 _` is an integer in
the closed range [60, 600], that same value appears in the enqueue call passed
to the queue transport, and on a successful enqueue it is recorded in the
post's ProcessingRecord (`queue_delay_seconds`); and for every relevant new
post handled by the direct strategy, the pre-reply sleep
`random_uniform 0 15 r` lies in the half-open interval [0, 15) whenever the
underlying `random.random()` draw `r` lies in [0, 1). -/
theorem delay_bounds :
    (∀ (env : EnvQ) (queue_url subreddit_name : String) (st : StateQ) (p : Post),
      lookup st.ledger p.id = none →
      (is_suitable_art_style_match p.title (p.selftext.getD "")
        (env.classify p.title (p.selftext.getD ""))).1 = true →
      60 ≤ random_randint 60 600 (env.delayDraw p.id)
      ∧ random_randint 60 600 (env.delayDraw p.id) ≤ 600
      ∧ ∃ ok : Bool,
          (processPostQ env (some queue_url) subreddit_name st p).trace
            = st.trace ++ [Event.classifyCall p.id, Event.generateCall p.id,
                Event.enqueueCall p.id (random_randint 60 600 (env.delayDraw p.id)) ok]
          ∧ (ok = true →
              ∃ r : RecordQ,
                lookup (processPostQ env (some queue_url) subreddit_name st p).ledger
                  p.id = some r
                ∧ r.queue_delay_seconds
                    = some (random_randint 60 600 (env.delayDraw p.id))
                ∧ r.queue_status = QueueStatus.success))
    ∧ (∀ (env : EnvD) (subreddit_name : String) (st : StateD) (p : Post),
      lookup st.ledger p.id = none →
      (is_suitable_art_style_match p.title (p.selftext.getD "")
        (env.classify p.title (p.selftext.getD ""))).1 = true →
      0 ≤ env.uniformDraw p.id → env.uniformDraw p.id < 1 →
      0 ≤ random_uniform 0 15 (env.uniformDraw p.id)
      ∧ random_uniform 0 15 (env.uniformDraw p.id) < 15
      ∧ ∃ ok : Bool,
          (processPostD env subreddit_name st p).trace
            = st.trace ++ [Event.classifyCall p.id,
                Event.sleepCall p.id (random_uniform 0 15 (env.uniformDraw p.id)),
                Event.generateCall p.id, Event.replyCall p.id ok]) := by
  constructor
  · intro env queue_url subreddit_name st p hnew hrel
    refine ⟨?_, ?_, ?_⟩
    · unfold random_randint
      omega
    · unfold random_randint
      have h := Nat.mod_lt (env.delayDraw p.id) (show 0 < 541 by norm_num)
      omega
    · simp only [processPostQ]
      rw [hnew]
      simp only [hrel, if_true]
      split
      · exact ⟨true, by simp, fun _ => ⟨_, lookup_upsert_self _ _ _, rfl, rfl⟩⟩
      · exact ⟨false, by simp, fun h => Bool.noConfusion h⟩
  · intro env subreddit_name st p hnew hrel h0 h1
    refine ⟨?_, ?_, ?_⟩
    · unfold random_uniform
      nlinarith
    · unfold random_uniform
      nlinarith
    · simp only [processPostD]
      rw [hnew]
      simp only [hrel, if_true]
      split
      · exact ⟨true, by simp⟩
      · exact ⟨false, by simp⟩

/-- Witness for C8: both delay expressions at concrete environments (raw
integer draw 0; raw real draw 1/2) satisfy the claimed bounds. -/
theorem delay_bounds_witness :
    (60 ≤ random_randint 60 600 0 ∧ random_randint 60 600 0 ≤ 600)
    ∧ (0 ≤ random_uniform 0 15 (mkRat 1 2)
        ∧ random_uniform 0 15 (mkRat 1 2) < 15) := by
  have h1 := delay_bounds.1
    { classify := fun _ _ => Except.ok ⟨true, 1, false⟩
      generate := fun _ _ => Except.error ()
      fetch := fun _ => Except.ok []
      send := fun _ _ _ => Except.ok ()
      delayDraw := fun _ => 0
      now := 0
      readable := fun _ => ""
      queueTime := fun _ => 0 }
    "qurl" "suba" (initStateQ [] []) ⟨"p1", "Need artist", none, "/r/x"⟩
    rfl (by decide)
  have h2 := delay_bounds.2
    { classify := fun _ _ => Except.ok ⟨true, 1, false⟩
      generate := fun _ _ => Except.error ()
      fetch := fun _ => Except.ok []
      reply := fun _ _ => Except.ok ()
      uniformDraw := fun _ => mkRat 1 2
      now := 0
      readable := fun _ => ""
      replyTime := fun _ => 0 }
    "suba" (initStateD [] []) ⟨"p1", "Need artist", none, "/r/x"⟩
    rfl (by decide) (by decide) (by decide)
  exact ⟨⟨h1.1, h1.2.1⟩, h2.1, h2.2.1⟩

end PostDetector

namespace RedditBot

theorem forall_pid_append {tr extra : List Event} {pid : String}
    (h1 : ∀ e ∈ tr, Event.pid e ≠ pid) (h2 : ∀ e ∈ extra, Event.pid e ≠ pid) :
    ∀ e ∈ tr ++ extra, Event.pid e ≠ pid := by
  intro e he
  rcases List.mem_append.mp he with h | h
  · exact h1 e h
  · exact h2 e h

theorem processPostD_skip (env : EnvD) (subreddit_name : String) (st : StateD)
    (post : Post) (r : RecordD) (h : lookup st.ledger post.id = some r) :
    processPostD env subreddit_name st post = st := by
  unfold processPostD
  rw [h]

theorem processPostD_idem_inv (env : EnvD) (subreddit_name : String) (st : StateD)
    (post : Post) (pid : String) (r : RecordD)
    (hmem : lookup st.ledger pid = some r)
    (htr : ∀ e ∈ st.trace, Event.pid e ≠ pid) :
    lookup (processPostD env subreddit_name st post).ledger pid = some r
    ∧ ∀ e ∈ (processPostD env subreddit_name st post).trace, Event.pid e ≠ pid := by
  cases hgate : lookup st.ledger post.id with
  | some r' =>
    rw [processPostD_skip env subreddit_name st post r' hgate]
    exact ⟨hmem, htr⟩
  | none =>
    have hne : post.id ≠ pid := by
      intro h
      rw [h, hmem] at hgate
      exact Option.noConfusion hgate
    have hext : ∀ qs : List Event, (∀ e ∈ qs, Event.pid e = post.id) →
        ∀ e ∈ st.trace ++ qs, Event.pid e ≠ pid := by
      intro qs hqs e he
      rcases List.mem_append.mp he with h | h
      · exact htr e h
      · rw [hqs e h]
        exact hne
    simp only [processPostD, hgate]
    by_cases hrel : (is_suitable_art_style_match post.title (post.selftext.getD "")
        (env.classify post.title (post.selftext.getD ""))).1 = true
    · simp only [hrel, if_true]
      split
      · constructor
        · simp only [lookup_upsert_ne _ _ _ _ hne]
          exact hmem
        · intro e he
          simp only [List.append_assoc, List.cons_append, List.nil_append] at he
          refine hext _ ?_ e he
          intro e' he'
          simp only [List.mem_cons, List.not_mem_nil, or_false] at he'
          rcases he' with rfl | rfl | rfl | rfl <;> rfl
      · constructor
        · simp only [lookup_upsert_ne _ _ _ _ hne]
          exact hmem
        · intro e he
          simp only [List.append_assoc, List.cons_append, List.nil_append] at he
          refine hext _ ?_ e he
          intro e' he'
          simp only [List.mem_cons, List.not_mem_nil, or_false] at he'
          rcases he' with rfl | rfl | rfl | rfl <;> rfl
    · simp only [hrel, Bool.false_eq_true, if_false]
      constructor
      · simp only [lookup_upsert_ne _ _ _ _ hne]
        exact hmem
      · intro e he
        refine hext _ ?_ e he
        intro e' he'
        simp only [List.mem_cons, List.not_mem_nil, or_false] at he'
        rcases he' with rfl <;> rfl

theorem runPostsD_idem_inv (env : EnvD) (subreddit_name : String)
    (posts : List Post) :
    ∀ (st : StateD) (pid : String) (r : RecordD),
    lookup st.ledger pid = some r → (∀ e ∈ st.trace, Event.pid e ≠ pid) →
    lookup (runPostsD env subreddit_name st posts).ledger pid = some r
    ∧ ∀ e ∈ (runPostsD env subreddit_name st posts).trace, Event.pid e ≠ pid := by
  induction posts with
  | nil =>
    intro st pid r hmem htr
    exact ⟨hmem, htr⟩
  | cons p rest ih =>
    intro st pid r hmem htr
    obtain ⟨hmem', htr'⟩ := processPostD_idem_inv env subreddit_name st p pid r hmem htr
    exact ih _ pid r hmem' htr'

theorem runSubredditsD_idem_inv (env : EnvD) (subs : List String) :
    ∀ (st st' : StateD), runSubredditsD env st subs = Except.ok st' →
    ∀ (pid : String) (r : RecordD), lookup st.ledger pid = some r →
    (∀ e ∈ st.trace, Event.pid e ≠ pid) →
    lookup st'.ledger pid = some r ∧ ∀ e ∈ st'.trace, Event.pid e ≠ pid := by
  induction subs with
  | nil =>
    intro st st' hrun pid r hmem htr
    rw [show runSubredditsD env st ([] : List String) = Except.ok st from rfl] at hrun
    injection hrun with h
    subst h
    exact ⟨hmem, htr⟩
  | cons s rest ih =>
    intro st st' hrun pid r hmem htr
    rw [show runSubredditsD env st (s :: rest)
        = match env.fetch s with
          | Except.error e => Except.error e
          | Except.ok posts =>
            runSubredditsD env (runPostsD env s st posts) rest from rfl] at hrun
    cases hf : env.fetch s with
    | error e =>
      rw [hf] at hrun
      exact Except.noConfusion hrun
    | ok posts =>
      rw [hf] at hrun
      obtain ⟨hmem', htr'⟩ := runPostsD_idem_inv env s posts st pid r hmem htr
      exact ih _ _ hrun pid r hmem' htr'

end RedditBot

namespace PostDetector

open RedditBot

theorem processPostQ_skip (env : EnvQ) (sqs_queue_url : Option String)
    (subreddit_name : String) (st : StateQ) (post : Post) (r : RecordQ)
    (h : lookup st.ledger post.id = some r) :
    processPostQ env sqs_queue_url subreddit_name st post = st := by
  unfold processPostQ
  rw [h]

theorem processPostQ_idem_inv (env : EnvQ) (sqs_queue_url : Option String)
    (subreddit_name : String) (st : StateQ) (post : Post) (pid : String)
    (r : RecordQ)
    (hmem : lookup st.ledger pid = some r)
    (htr : ∀ e ∈ st.trace, Event.pid e ≠ pid) :
    lookup (processPostQ env sqs_queue_url subreddit_name st post).ledger pid = some r
    ∧ ∀ e ∈ (processPostQ env sqs_queue_url subreddit_name st post).trace,
        Event.pid e ≠ pid := by
  cases hgate : lookup st.ledger post.id with
  | some r' =>
    rw [processPostQ_skip env sqs_queue_url subreddit_name st post r' hgate]
    exact ⟨hmem, htr⟩
  | none =>
    have hne : post.id ≠ pid := by
      intro h
      rw [h, hmem] at hgate
      exact Option.noConfusion hgate
    have hext : ∀ qs : List Event, (∀ e ∈ qs, Event.pid e = post.id) →
        ∀ e ∈ st.trace ++ qs, Event.pid e ≠ pid := by
      intro qs hqs e he
      rcases List.mem_append.mp he with h | h
      · exact htr e h
      · rw [hqs e h]
        exact hne
    cases sqs_queue_url with
    | some queue_url =>
      simp only [processPostQ, hgate]
      by_cases hrel : (is_suitable_art_style_match post.title (post.selftext.getD "")
          (env.classify post.title (post.selftext.getD ""))).1 = true
      · simp only [hrel, if_true]
        split
        · constructor
          · simp only [lookup_upsert_ne _ _ _ _ hne]
            exact hmem
          · intro e he
            try simp only [List.append_assoc, List.cons_append, List.nil_append] at he
            refine hext _ ?_ e he
            intro e' he'
            simp only [List.mem_cons, List.not_mem_nil, or_false] at he'
            rcases he' with rfl | rfl | rfl <;> rfl
        · constructor
          · simp only [lookup_upsert_ne _ _ _ _ hne]
            exact hmem
          · intro e he
            try simp only [List.append_assoc, List.cons_append, List.nil_append] at he
            refine hext _ ?_ e he
            intro e' he'
            simp only [List.mem_cons, List.not_mem_nil, or_false] at he'
            rcases he' with rfl | rfl | rfl <;> rfl
      · simp only [hrel, Bool.false_eq_true, if_false]
        constructor
        · simp only [lookup_upsert_ne _ _ _ _ hne]
          exact hmem
        · intro e he
          try simp only [List.append_assoc, List.cons_append, List.nil_append] at he
          refine hext _ ?_ e he
          intro e' he'
          simp only [List.mem_cons, List.not_mem_nil, or_false] at he'
          rcases he' with rfl <;> rfl
    | none =>
      simp only [processPostQ, hgate]
      by_cases hrel : (is_suitable_art_style_match post.title (post.selftext.getD "")
          (env.classify post.title (post.selftext.getD ""))).1 = true
      · simp only [hrel, if_true]
        constructor
        · simp only [lookup_upsert_ne _ _ _ _ hne]
          exact hmem
        · intro e he
          try simp only [List.append_assoc, List.cons_append, List.nil_append] at he
          refine hext _ ?_ e he
          intro e' he'
          simp only [List.mem_cons, List.not_mem_nil, or_false] at he'
          rcases he' with rfl | rfl <;> rfl
      · simp only [hrel, Bool.false_eq_true, if_false]
        constructor
        · simp only [lookup_upsert_ne _ _ _ _ hne]
          exact hmem
        · intro e he
          try simp only [List.append_assoc, List.cons_append, List.nil_append] at he
          refine hext _ ?_ e he
          intro e' he'
          simp only [List.mem_cons, List.not_mem_nil, or_false] at he'
          rcases he' with rfl <;> rfl

theorem runPostsQ_idem_inv (env : EnvQ) (sqs_queue_url : Option String)
    (subreddit_name : String) (posts : List Post) :
    ∀ (st : StateQ) (pid : String) (r : RecordQ),
    lookup st.ledger pid = some r → (∀ e ∈ st.trace, Event.pid e ≠ pid) →
    lookup (runPostsQ env sqs_queue_url subreddit_name st posts).ledger pid = some r
    ∧ ∀ e ∈ (runPostsQ env sqs_queue_url subreddit_name st posts).trace,
        Event.pid e ≠ pid := by
  induction posts with
  | nil =>
    intro st pid r hmem htr
    exact ⟨hmem, htr⟩
  | cons p rest ih =>
    intro st pid r hmem htr
    obtain ⟨hmem', htr'⟩ := processPostQ_idem_inv env sqs_queue_url subreddit_name
      st p pid r hmem htr
    exact ih _ pid r hmem' htr'

theorem runSubredditsQ_idem_inv (env : EnvQ) (sqs_queue_url : Option String)
    (subs : List String) :
    ∀ (st : StateQ) (pid : String) (r : RecordQ), lookup st.ledger pid = some r →
    (∀ e ∈ st.trace, Event.pid e ≠ pid) →
    lookup (runSubredditsQ env sqs_queue_url st subs).ledger pid = some r
    ∧ ∀ e ∈ (runSubredditsQ env sqs_queue_url st subs).trace, Event.pid e ≠ pid := by
  induction subs with
  | nil =>
    intro st pid r hmem htr
    exact ⟨hmem, htr⟩
  | cons s rest ih =>
    intro st pid r hmem htr
    rw [show runSubredditsQ env sqs_queue_url st (s :: rest)
        = match env.fetch s with
          | Except.error _ => runSubredditsQ env sqs_queue_url st rest
          | Except.ok posts =>
            runSubredditsQ env sqs_queue_url
              (runPostsQ env sqs_queue_url s st posts) rest from rfl]
    cases hf : env.fetch s with
    | error e =>
      exact ih st pid r hmem htr
    | ok posts =>
      obtain ⟨hmem', htr'⟩ := runPostsQ_idem_inv env sqs_queue_url s posts st
        pid r hmem htr
      exact ih _ pid r hmem' htr'

/-- C1: idempotence of both scanner pipelines.  For every post identifier
already a key of the Ledger at the start of the run (with any record,
including one whose delivery ended in failure), a run leaves that identifier's
ProcessingRecord unchanged and its trace contains no classification,
generation, delivery, or enqueue event for that identifier. -/
theorem scanner_idempotence :
    (∀ (env : EnvD) (subs : List String) (ledger0 : List (String × RecordD))
        (success0 : List (String × SuccessEntryD)) (pid : String) (r : RecordD)
        (st' : StateD),
      lookup ledger0 pid = some r →
      RedditBot.check_and_reply_to_posts env subs ledger0 success0 = Except.ok st' →
      lookup st'.ledger pid = some r ∧ ∀ e ∈ st'.trace, Event.pid e ≠ pid)
    ∧ (∀ (env : EnvQ) (sqs_queue_url : Option String) (subs : List String)
        (ledger0 : List (String × RecordQ))
        (success0 : List (String × SuccessEntryQ)) (pid : String) (r : RecordQ),
      lookup ledger0 pid = some r →
      lookup (PostDetector.check_and_reply_to_posts env sqs_queue_url subs
        ledger0 success0).ledger pid = some r
      ∧ ∀ e ∈ (PostDetector.check_and_reply_to_posts env sqs_queue_url subs
          ledger0 success0).trace, Event.pid e ≠ pid) := by
  constructor
  · intro env subs ledger0 success0 pid r st' hmem hrun
    exact runSubredditsD_idem_inv env subs (initStateD ledger0 success0) st' hrun
      pid r hmem (by intro e he; exact absurd he (List.not_mem_nil e))
  · intro env sqs_queue_url subs ledger0 success0 pid r hmem
    exact runSubredditsQ_idem_inv env sqs_queue_url subs
      (initStateQ ledger0 success0) pid r hmem
      (by intro e he; exact absurd he (List.not_mem_nil e))

/-- Witness for C1: for both variants, with a pre-existing Ledger entry for
post `"p1"` that ended in failure and a fetch that returns that very post, the
run leaves the record unchanged and produces no event for `"p1"`. -/
theorem scanner_idempotence_witness :
    (∃ st' : StateD,
      RedditBot.check_and_reply_to_posts envSeenD ["suba"]
        [("p1", sampleRecordD)] [] = Except.ok st'
      ∧ lookup st'.ledger "p1" = some sampleRecordD
      ∧ ∀ e ∈ st'.trace, Event.pid e ≠ "p1")
    ∧ (lookup (PostDetector.check_and_reply_to_posts envSeenQ (some "qurl") ["suba"]
        [("p1", sampleRecordQ)] []).ledger "p1" = some sampleRecordQ
      ∧ ∀ e ∈ (PostDetector.check_and_reply_to_posts envSeenQ (some "qurl") ["suba"]
          [("p1", sampleRecordQ)] []).trace, Event.pid e ≠ "p1") :=
  ⟨⟨_, rfl, scanner_idempotence.1 envSeenD ["suba"] [("p1", sampleRecordD)] []
      "p1" sampleRecordD _ rfl rfl⟩,
   scanner_idempotence.2 envSeenQ (some "qurl") ["suba"] [("p1", sampleRecordQ)] []
      "p1" sampleRecordQ rfl⟩

end PostDetector

namespace RedditBot

theorem processPostD_flag (env : EnvD) (subreddit_name : String) (st : StateD)
    (post : Post) :
    (processPostD env subreddit_name st post).log_updated_this_run
      = (st.log_updated_this_run || (lookup st.ledger post.id).isNone) := by
  cases hgate : lookup st.ledger post.id with
  | some r =>
    rw [processPostD_skip env subreddit_name st post r hgate]
    simp
  | none =>
    simp only [processPostD, hgate, Option.isNone_none, Bool.or_true]
    by_cases hrel : (is_suitable_art_style_match post.title (post.selftext.getD "")
        (env.classify post.title (post.selftext.getD ""))).1 = true
    · simp only [hrel, if_true]
      split <;> rfl
    · simp only [hrel, Bool.false_eq_true, if_false]

theorem runPostsD_flag (env : EnvD) (subreddit_name : String) (posts : List Post) :
    ∀ st : StateD,
    (runPostsD env subreddit_name st posts).log_updated_this_run
      = (st.log_updated_this_run
          || posts.any fun p => (lookup st.ledger p.id).isNone) := by
  induction posts with
  | nil =>
    intro st
    simp [runPostsD]
  | cons p rest ih =>
    intro st
    show (runPostsD env subreddit_name (processPostD env subreddit_name st p)
      rest).log_updated_this_run = _
    rw [ih]
    cases hgate : lookup st.ledger p.id with
    | some r =>
      rw [processPostD_skip env subreddit_name st p r hgate]
      simp [List.any_cons, hgate]
    | none =>
      have h1 : (processPostD env subreddit_name st p).log_updated_this_run = true := by
        rw [processPostD_flag]
        simp [hgate]
      rw [h1]
      simp [List.any_cons, hgate]

theorem runPostsD_nochange (env : EnvD) (subreddit_name : String)
    (posts : List Post) :
    ∀ st : StateD,
    (posts.any fun p => (lookup st.ledger p.id).isNone) = false →
    runPostsD env subreddit_name st posts = st := by
  induction posts with
  | nil =>
    intro st h
    rfl
  | cons p rest ih =>
    intro st h
    simp only [List.any_cons, Bool.or_eq_false_iff] at h
    obtain ⟨h1, h2⟩ := h
    cases hgate : lookup st.ledger p.id with
    | none =>
      rw [hgate] at h1
      simp at h1
    | some r =>
      show runPostsD env subreddit_name (processPostD env subreddit_name st p) rest = st
      rw [processPostD_skip env subreddit_name st p r hgate]
      exact ih st h2

theorem runSubredditsD_flag (env : EnvD) (subs : List String) :
    ∀ (st st' : StateD), runSubredditsD env st subs = Except.ok st' →
    st'.log_updated_this_run
      = (st.log_updated_this_run || anyNewPost st.ledger (fetchedPostsD env subs)) := by
  induction subs with
  | nil =>
    intro st st' hrun
    rw [show runSubredditsD env st ([] : List String) = Except.ok st from rfl] at hrun
    injection hrun with h
    subst h
    simp [anyNewPost, fetchedPostsD]
  | cons s rest ih =>
    intro st st' hrun
    rw [show runSubredditsD env st (s :: rest)
        = match env.fetch s with
          | Except.error e => Except.error e
          | Except.ok posts =>
            runSubredditsD env (runPostsD env s st posts) rest from rfl] at hrun
    cases hf : env.fetch s with
    | error e =>
      rw [hf] at hrun
      exact Except.noConfusion hrun
    | ok posts =>
      rw [hf] at hrun
      have hfp : fetchedPostsD env (s :: rest) = posts ++ fetchedPostsD env rest := by
        simp [fetchedPostsD, hf]
      have hih := ih _ _ hrun
      by_cases hA : (posts.any fun p => (lookup st.ledger p.id).isNone) = true
      · have h1 : (runPostsD env s st posts).log_updated_this_run = true := by
          rw [runPostsD_flag]
          simp [hA]
        rw [hih, h1, hfp]
        simp [anyNewPost, List.any_append, hA]
      · have hA' : (posts.any fun p => (lookup st.ledger p.id).isNone) = false := by
          simpa using hA
        rw [runPostsD_nochange env s posts st hA'] at hih
        rw [hih, hfp]
        simp [anyNewPost, List.any_append, hA']

theorem runSubredditsD_nochange (env : EnvD) (subs : List String) :
    ∀ (st st' : StateD), runSubredditsD env st subs = Except.ok st' →
    anyNewPost st.ledger (fetchedPostsD env subs) = false →
    st' = st := by
  induction subs with
  | nil =>
    intro st st' hrun h
    rw [show runSubredditsD env st ([] : List String) = Except.ok st from rfl] at hrun
    injection hrun with hh
    exact hh.symm
  | cons s rest ih =>
    intro st st' hrun h
    rw [show runSubredditsD env st (s :: rest)
        = match env.fetch s with
          | Except.error e => Except.error e
          | Except.ok posts =>
            runSubredditsD env (runPostsD env s st posts) rest from rfl] at hrun
    cases hf : env.fetch s with
    | error e =>
      rw [hf] at hrun
      exact Except.noConfusion hrun
    | ok posts =>
      rw [hf] at hrun
      rw [show fetchedPostsD env (s :: rest) = posts ++ fetchedPostsD env rest
        from by simp [fetchedPostsD, hf]] at h
      simp only [anyNewPost, List.any_append, Bool.or_eq_false_iff] at h
      obtain ⟨h1, h2⟩ := h
      have hrun' : runSubredditsD env (runPostsD env s st posts) rest
          = Except.ok st' := hrun
      rw [runPostsD_nochange env s posts st h1] at hrun'
      exact ih st st' hrun' h2

theorem processPostD_success_inv (env : EnvD) (subreddit_name : String)
    (st : StateD) (post : Post)
    (h : st.new_replies_made = hasReplySuccess st.trace) :
    (processPostD env subreddit_name st post).new_replies_made
      = hasReplySuccess (processPostD env subreddit_name st post).trace := by
  cases hgate : lookup st.ledger post.id with
  | some r =>
    rw [processPostD_skip env subreddit_name st post r hgate]
    exact h
  | none =>
    simp only [processPostD, hgate]
    by_cases hrel : (is_suitable_art_style_match post.title (post.selftext.getD "")
        (env.classify post.title (post.selftext.getD ""))).1 = true
    · simp only [hrel, if_true]
      split
      · simp [hasReplySuccess, List.any_append]
      · simpa [hasReplySuccess, List.any_append] using h
    · simp only [hrel, Bool.false_eq_true, if_false]
      simpa [hasReplySuccess, List.any_append] using h

theorem runPostsD_success_inv (env : EnvD) (subreddit_name : String)
    (posts : List Post) :
    ∀ st : StateD, st.new_replies_made = hasReplySuccess st.trace →
    (runPostsD env subreddit_name st posts).new_replies_made
      = hasReplySuccess (runPostsD env subreddit_name st posts).trace := by
  induction posts with
  | nil =>
    intro st h
    exact h
  | cons p rest ih =>
    intro st h
    exact ih _ (processPostD_success_inv env subreddit_name st p h)

theorem runSubredditsD_success_inv (env : EnvD) (subs : List String) :
    ∀ (st st' : StateD), runSubredditsD env st subs = Except.ok st' →
    st.new_replies_made = hasReplySuccess st.trace →
    st'.new_replies_made = hasReplySuccess st'.trace := by
  induction subs with
  | nil =>
    intro st st' hrun h
    rw [show runSubredditsD env st ([] : List String) = Except.ok st from rfl] at hrun
    injection hrun with hh
    subst hh
    exact h
  | cons s rest ih =>
    intro st st' hrun h
    rw [show runSubredditsD env st (s :: rest)
        = match env.fetch s with
          | Except.error e => Except.error e
          | Except.ok posts =>
            runSubredditsD env (runPostsD env s st posts) rest from rfl] at hrun
    cases hf : env.fetch s with
    | error e =>
      rw [hf] at hrun
      exact Except.noConfusion hrun
    | ok posts =>
      rw [hf] at hrun
      exact ih _ _ hrun (runPostsD_success_inv env s posts st h)

/-- C6: dirty-flag correctness of the direct variant.  After a completed run,
the saved Ledger blob is rewritten iff some fetched post was absent from the
initial Ledger (and then to the run's final in-memory Ledger), the saved
SuccessLog blob is rewritten iff some delivery reached `success` during the
run, and a run with zero new posts leaves the in-memory state (Ledger,
SuccessLog, trace) exactly as loaded. -/
theorem dirty_flag_correctness (env : EnvD) (subs : List String)
    (ledger0 : List (String × RecordD)) (success0 : List (String × SuccessEntryD))
    (st' : StateD) (storedL : List (String × RecordD))
    (storedS : List (String × SuccessEntryD))
    (hrun : check_and_reply_to_posts env subs ledger0 success0 = Except.ok st') :
    save_processed_posts_log st'.ledger storedL st'.log_updated_this_run
      = (if anyNewPost ledger0 (fetchedPostsD env subs) then st'.ledger else storedL)
    ∧ save_successful_replies_log st'.successLog storedS st'.new_replies_made
      = (if hasReplySuccess st'.trace then st'.successLog else storedS)
    ∧ (anyNewPost ledger0 (fetchedPostsD env subs) = false →
        st'.ledger = ledger0 ∧ st'.successLog = success0 ∧ st'.trace = []) := by
  have hflag := runSubredditsD_flag env subs (initStateD ledger0 success0) st' hrun
  have hsucc := runSubredditsD_success_inv env subs (initStateD ledger0 success0)
    st' hrun rfl
  simp only [initStateD, Bool.false_or] at hflag
  refine ⟨?_, ?_, ?_⟩
  · unfold save_processed_posts_log
    rw [hflag]
  · unfold save_successful_replies_log
    rw [hsucc]
  · intro h
    have hid := runSubredditsD_nochange env subs (initStateD ledger0 success0)
      st' hrun h
    rw [hid]
    exact ⟨rfl, rfl, rfl⟩

/-- Witness for C6: a concrete run seeing only an already-processed post (zero
new posts) rewrites neither blob and leaves the state as loaded. -/
theorem dirty_flag_correctness_witness :
    save_processed_posts_log (initStateD [("p1", sampleRecordD)] []).ledger
        [("x", sampleRecordD)] (initStateD [("p1", sampleRecordD)] []).log_updated_this_run
      = (if anyNewPost [("p1", sampleRecordD)] (fetchedPostsD envSeenD ["suba"])
          then (initStateD [("p1", sampleRecordD)] []).ledger else [("x", sampleRecordD)])
    ∧ save_successful_replies_log (initStateD [("p1", sampleRecordD)] []).successLog
        [] (initStateD [("p1", sampleRecordD)] []).new_replies_made
      = (if hasReplySuccess (initStateD [("p1", sampleRecordD)] []).trace
          then (initStateD [("p1", sampleRecordD)] []).successLog else []) :=
  ⟨(dirty_flag_correctness envSeenD ["suba"] [("p1", sampleRecordD)] []
      (initStateD [("p1", sampleRecordD)] []) [("x", sampleRecordD)] [] rfl).1,
   (dirty_flag_correctness envSeenD ["suba"] [("p1", sampleRecordD)] []
      (initStateD [("p1", sampleRecordD)] []) [("x", sampleRecordD)] [] rfl).2.1⟩

end RedditBot
